import Mathlib

/-
Verification of the telesock SOCKS5 proxy core (src/internal/socks5.go,
src/main.go) against its natural-language specification.

The Go code is shallowly embedded: the client byte stream is a `List Nat`
of bytes that reads consume, bytes written to the client accumulate in a
`List Nat`, and the destination dial is an oracle function supplied as a
parameter.  Each definition mirrors one Go function or code region and is
annotated with its source location.
-/

namespace Telesock

/-- Reading one byte from the buffered client reader
(`tcp.clientR.ReadByte()`): fails on end of stream, otherwise returns the
byte and the remaining stream. -/
def readByte : List Nat → Option (Nat × List Nat)
  | [] => none
  | b :: rest => some (b, rest)

/-- Reading exactly `n` bytes (`io.ReadFull(tcp.clientR, buf)` with
`len(buf) = n`): fails if fewer than `n` bytes remain. -/
def readFull : Nat → List Nat → Option (List Nat × List Nat)
  | 0, rest => some ([], rest)
  | _ + 1, [] => none
  | n + 1, b :: rest =>
    match readFull n rest with
    | none => none
    | some (bs, rest') => some (b :: bs, rest')

/-- One configured credential (`Config.Users` element in
src/internal/socks5.go lines 25-28); usernames and passwords are byte
sequences. -/
structure User where
  username : List Nat
  password : List Nat
deriving DecidableEq, Repr

/-- Telesock configuration (`Config`, src/internal/socks5.go lines 24-29). -/
structure Config where
  users : List User
deriving DecidableEq, Repr

/-- The credential scan of `Auth` (src/internal/socks5.go lines 146-153):
`userFound` starts false; for every configured user the presented username
and password are compared byte-for-byte
(`subtle.ConstantTimeCompare(x, y) == 1` holds exactly when the two byte
sequences are equal), and on a double match `userFound` is set to true.
The loop has no `break`: every credential is visited. -/
def verify (users : List User) (username password : List Nat) : Bool :=
  users.foldl
    (fun userFound user =>
      let usernameOk := username == user.username
      let passwordOk := password == user.password
      if usernameOk && passwordOk then true else userFound)
    false

/-- The same credential scan instrumented with a ghost counter that
increments once per loop iteration, recording how many configured
credentials are compared; the boolean component is computed exactly as in
`verify`. -/
def verifyCount (users : List User) (username password : List Nat) :
    Bool × Nat :=
  users.foldl
    (fun acc user =>
      let usernameOk := username == user.username
      let passwordOk := password == user.password
      ((if usernameOk && passwordOk then true else acc.1), acc.2 + 1))
    (false, 0)

/-- The method-selection loop of `Auth` (src/internal/socks5.go lines
88-94): `method` starts at 255; the first offered method equal to 2 is
selected and the loop breaks. -/
def selectMethod : List Nat → Nat
  | [] => 255
  | m :: rest => if m = 2 then m else selectMethod rest

/-- Result of a handshake stage: whether the stage returned true, the
bytes it wrote to the client, and the unread remainder of the client
stream. -/
structure AuthResult where
  ok : Bool
  written : List Nat
  rest : List Nat
deriving DecidableEq, Repr

/-- The `Auth` method (src/internal/socks5.go lines 65-171): greeting
(version byte, method count, method bytes, 2-byte method reply), then the
username/password sub-negotiation (version byte, username length and
bytes, password length and bytes, credential scan, 2-byte status reply).
Writes to the in-memory client never fail in this embedding. -/
def auth (conf : Config) (input : List Nat) : AuthResult :=
  match readByte input with
  | none => ⟨false, [], input⟩
  | some (ver, r1) =>
    if ver ≠ 5 then ⟨false, [], r1⟩
    else
      match readByte r1 with
      | none => ⟨false, [], r1⟩
      | some (nmethod, r2) =>
        match readFull nmethod r2 with
        | none => ⟨false, [], r2⟩
        | some (methods, r3) =>
          let method := selectMethod methods
          let w1 := [5, method]
          if method = 255 then ⟨false, w1, r3⟩
          else
            match readByte r3 with
            | none => ⟨false, w1, r3⟩
            | some (sver, r4) =>
              if sver ≠ 1 then ⟨false, w1, r4⟩
              else
                match readByte r4 with
                | none => ⟨false, w1, r4⟩
                | some (ulen, r5) =>
                  if ulen = 0 then ⟨false, w1, r5⟩
                  else
                    match readFull ulen r5 with
                    | none => ⟨false, w1, r5⟩
                    | some (username, r6) =>
                      match readByte r6 with
                      | none => ⟨false, w1, r6⟩
                      | some (plen, r7) =>
                        if plen = 0 then ⟨false, w1, r7⟩
                        else
                          match readFull plen r7 with
                          | none => ⟨false, w1, r7⟩
                          | some (password, r8) =>
                            let userFound :=
                              verify conf.users username password
                            let status : Nat := if userFound then 0 else 1
                            ⟨status = 0, w1 ++ [1, status], r8⟩

/-- The on-wire IPv4 address plus port structure (`ipv4Addr`,
src/internal/socks5.go lines 180-183): four address bytes and a 16-bit
port. -/
structure Ipv4Addr where
  a0 : Nat
  a1 : Nat
  a2 : Nat
  a3 : Nat
  port : Nat
deriving DecidableEq, Repr

/-- Big-endian encoding of a `uint16` port as written by
`binary.Write(..., binary.BigEndian, ...)`. -/
def encPort (p : Nat) : List Nat :=
  [p / 256 % 256, p % 256]

/-- Big-endian encoding of the 6-byte `ipv4Addr` structure. -/
def encIpv4Addr (x : Ipv4Addr) : List Nat :=
  [x.a0 % 256, x.a1 % 256, x.a2 % 256, x.a3 % 256] ++ encPort x.port

/-- Result of the `Req` stage: whether it returned true, the bytes
written to the client, the unread remainder of the client stream, and the
destination connection handle (`tcp.server`) — absent unless the dial
succeeded, in which case it carries the local address and local port of
the connection as reported by the operating system. -/
structure ReqResult where
  ok : Bool
  written : List Nat
  rest : List Nat
  server : Option Ipv4Addr
deriving DecidableEq, Repr

/-- The `Req` method (src/internal/socks5.go lines 192-260).  It reads
the fixed 4-byte request header {version, command, reserved,
address-type} via `binary.Read` and validates each field in turn with no
reply on mismatch, reads the 6-byte destination address structure, and
dials.  The dial (`net.DialTCP`) is the oracle `dial`, mapping the
requested destination to the local address of the new connection on success
and to `none` on failure.  On dial failure the code sets `res.Rep = 1`
and writes only the 4-byte `res` structure before returning false; on
success it writes the 4-byte `res` {5, 0, 0, 1}, stores the connection in
`tcp.server`, and then writes the 6-byte `ipv4Addr` holding the local
address and `uint16(laddr.Port)`. -/
def req (dial : Ipv4Addr → Option Ipv4Addr) (input : List Nat) :
    ReqResult :=
  match input with
  | ver :: cmd :: rsv :: atyp :: r1 =>
    if ver ≠ 5 then ⟨false, [], r1, none⟩
    else if cmd ≠ 1 then ⟨false, [], r1, none⟩
    else if rsv ≠ 0 then ⟨false, [], r1, none⟩
    else if atyp ≠ 1 then ⟨false, [], r1, none⟩
    else
      match r1 with
      | d0 :: d1 :: d2 :: d3 :: p0 :: p1 :: r2 =>
        let raddr : Ipv4Addr := ⟨d0, d1, d2, d3, p0 * 256 + p1⟩
        match dial raddr with
        | none => ⟨false, [5, 1, 0, 1], r2, none⟩
        | some laddr =>
          let bound : Ipv4Addr :=
            ⟨laddr.a0, laddr.a1, laddr.a2, laddr.a3, laddr.port % 65536⟩
          ⟨true, [5, 0, 0, 1] ++ encIpv4Addr bound, r2, some laddr⟩
      | _ => ⟨false, [], r1, none⟩
  | _ => ⟨false, [], input, none⟩

/-- Outcome of one session (`runTCPConn`, src/main.go lines 30-41):
whether `Auth` returned true, whether `Req` returned true, the final
destination connection handle, and whether the relay stage `Run` was
entered. -/
structure SessionOutcome where
  authOk : Bool
  reqOk : Bool
  server : Option Ipv4Addr
  ranRelay : Bool
deriving DecidableEq, Repr

/-- The per-connection driver `runTCPConn` (src/main.go lines 30-41):
run `Auth`; if it returns false stop; run `Req` on the remaining stream;
if it returns false stop; otherwise enter the relay stage `Run`. -/
def runTCPConn (conf : Config) (dial : Ipv4Addr → Option Ipv4Addr)
    (input : List Nat) : SessionOutcome :=
  let a := auth conf input
  if !a.ok then ⟨false, false, none, false⟩
  else
    let r := req dial a.rest
    if !r.ok then ⟨true, false, r.server, false⟩
    else ⟨true, true, r.server, true⟩

/-- State of one relay copy direction: still copying, or returned
(because its source reached end-of-stream or an I/O error occurred). -/
inductive CopySt where
  | running : CopySt
  | finished : CopySt
deriving DecidableEq, Repr

/-- State of the relay stage and teardown of one session, covering `Run`
(src/internal/socks5.go lines 262-271), the deferred `Close` in
`runTCPConn` (src/main.go line 32), and `Close` itself
(src/internal/socks5.go lines 55-63).  `c2s` is the goroutine copying
client to destination; `s2c` is the session task copying destination to
client; `runHasReturned` records that `Run` returned; `closeRan` records
that the single deferred `Close` executed; the two counters count close
calls performed on the destination connection and on the client stream. -/
structure RunState where
  c2s : CopySt
  s2c : CopySt
  runHasReturned : Bool
  closeRan : Bool
  serverCloses : Nat
  clientCloses : Nat
deriving DecidableEq, Repr

/-- The relay stage as entered from `runTCPConn`: both copy directions
running, `Run` not yet returned, no close performed. -/
def initRunState : RunState :=
  ⟨CopySt.running, CopySt.running, false, false, 0, 0⟩

/-- Environment event: the client-to-destination copy
(`io.Copy(tcp.server, tcp.clientR)` in the goroutine, src/internal/
socks5.go lines 263-267) returns because the client stream reached
end-of-stream or errored.  The goroutine body only logs; it closes
nothing and signals nothing. -/
def clientSideEnds (s : RunState) : RunState :=
  { s with c2s := CopySt.finished }

/-- Environment event: the destination-to-client copy
(`io.Copy(tcp.clientW, tcp.server)`, src/internal/socks5.go lines
268-270) returns because the destination stream reached end-of-stream or
errored. -/
def serverSideEnds (s : RunState) : RunState :=
  { s with s2c := CopySt.finished }

/-- The code-driven progress of the session after relay events, one step
at a time; `none` when the code has no enabled step and only an
environment event can change the state.  The steps, in their program
order: `Run` returns once the destination-to-client copy returns (it
never waits on the goroutine); the deferred `Close` in `runTCPConn` then
runs exactly once, closing the destination connection (non-nil in the
relay stage) and then the client stream; once the shared connections are
closed, a still-running client-to-destination copy gets an I/O error and
returns. -/
def istepF (s : RunState) : Option RunState :=
  if s.s2c = CopySt.finished ∧ s.runHasReturned = false then
    some { s with runHasReturned := true }
  else if s.runHasReturned = true ∧ s.closeRan = false then
    some { s with
      closeRan := true
      serverCloses := s.serverCloses + 1
      clientCloses := s.clientCloses + 1 }
  else if s.closeRan = true ∧ s.c2s = CopySt.running then
    some { s with c2s := CopySt.finished }
  else none

/-- Iterate the code-driven steps up to `fuel` times, stopping at a state
with no enabled step. -/
def drain : Nat → RunState → RunState
  | 0, s => s
  | fuel + 1, s =>
    match istepF s with
    | none => s
    | some s' => drain fuel s'

/-- Reading exactly the length of a list consumes that list and leaves
the suffix. -/
theorem readFull_append (l rest : List Nat) :
    readFull l.length (l ++ rest) = some (l, rest) := by
  induction l with
  | nil => rfl
  | cons b bs ih => simp [readFull, ih]

/-- The method-selection loop returns 2 when method 2 is offered. -/
theorem selectMethod_of_mem (ms : List Nat) (h : 2 ∈ ms) :
    selectMethod ms = 2 := by
  induction ms with
  | nil => cases h
  | cons m rest ih =>
    by_cases hm : m = 2
    · simp [selectMethod, hm]
    · rcases List.mem_cons.mp h with h | h
      · exact absurd h.symm hm
      · simp [selectMethod, hm, ih h]

/-- The method-selection loop returns the sentinel 255 when method 2 is
not offered. -/
theorem selectMethod_of_not_mem (ms : List Nat) (h : 2 ∉ ms) :
    selectMethod ms = 255 := by
  induction ms with
  | nil => rfl
  | cons m rest ih =>
    have hm : m ≠ 2 := fun e => h (e ▸ List.mem_cons_self m rest)
    have hr : 2 ∉ rest := fun e => h (List.mem_cons_of_mem m e)
    simp [selectMethod, hm, ih hr]

/-- Generalized-accumulator form of the credential scan: starting from
any accumulator, the fold ORs in one match flag per credential. -/
theorem verify_foldl_acc (u p : List Nat) (us : List User) :
    ∀ acc : Bool,
      us.foldl
        (fun userFound user =>
          let usernameOk := u == user.username
          let passwordOk := p == user.password
          if usernameOk && passwordOk then true else userFound)
        acc
      = (acc || us.any fun user =>
          u == user.username && p == user.password) := by
  induction us with
  | nil => intro acc; simp
  | cons head tail ih =>
    intro acc
    simp only [List.foldl_cons, List.any_cons, ih]
    by_cases hm : (u == head.username && p == head.password) = true
    · simp [hm]
    · have hm' : (u == head.username && p == head.password) = false :=
        Bool.eq_false_iff.mpr hm
      simp [hm']

/-- The credential scan is the ANY of the per-credential match flags. -/
theorem verify_eq_any (users : List User) (u p : List Nat) :
    verify users u p
      = users.any (fun user =>
          u == user.username && p == user.password) := by
  simpa [verify] using verify_foldl_acc u p users false

/-- The credential scan succeeds exactly when some configured credential
matches both fields byte-for-byte. -/
theorem verify_iff (users : List User) (u p : List Nat) :
    verify users u p = true ↔
      ∃ cred ∈ users, u = cred.username ∧ p = cred.password := by
  rw [verify_eq_any]
  simp [List.any_eq_true]

/-- The instrumented scan counts one comparison per configured
credential, starting from any accumulator. -/
theorem verifyCount_snd_acc (u p : List Nat) (us : List User) :
    ∀ acc : Bool × Nat,
      (us.foldl
        (fun acc user =>
          let usernameOk := u == user.username
          let passwordOk := p == user.password
          ((if usernameOk && passwordOk then true else acc.1), acc.2 + 1))
        acc).2
      = acc.2 + us.length := by
  induction us with
  | nil => intro acc; simp
  | cons head tail ih =>
    intro acc
    rw [List.foldl_cons, ih]
    simp [List.length_cons]
    omega

/-- The boolean component of the instrumented scan follows the plain
scan, starting from matching accumulators. -/
theorem verifyCount_fst_acc (u p : List Nat) (us : List User) :
    ∀ (b : Bool) (n : Nat),
      (us.foldl
        (fun acc user =>
          let usernameOk := u == user.username
          let passwordOk := p == user.password
          ((if usernameOk && passwordOk then true else acc.1), acc.2 + 1))
        (b, n)).1
      = us.foldl
          (fun userFound user =>
            let usernameOk := u == user.username
            let passwordOk := p == user.password
            if usernameOk && passwordOk then true else userFound)
          b := by
  induction us with
  | nil => intro b n; rfl
  | cons head tail ih =>
    intro b n
    simp only [List.foldl_cons]
    exact ih _ _

/-- A true return from `Req` carries a destination connection handle:
`tcp.server` is assigned before the success return. -/
theorem req_ok_server (dial : Ipv4Addr → Option Ipv4Addr)
    (input : List Nat) :
    (req dial input).ok = true → (req dial input).server.isSome = true := by
  unfold req
  split
  · split_ifs
    case _ => intro h; cases h
    case _ => intro h; cases h
    case _ => intro h; cases h
    case _ => intro h; cases h
    case _ =>
      split
      · dsimp only
        split
        · intro h; cases h
        · intro _; rfl
      · intro h; cases h
  · intro h; cases h

/-- Generalized-accumulator form of the OR-combining fold over the
per-credential match flags. -/
theorem foldl_or_acc (u p : List Nat) (us : List User) :
    ∀ acc : Bool,
      us.foldl
        (fun userFound user =>
          userFound || (u == user.username && p == user.password))
        acc
      = (acc || us.any fun user =>
          u == user.username && p == user.password) := by
  induction us with
  | nil => intro acc; simp
  | cons head tail ih =>
    intro acc
    simp only [List.foldl_cons, List.any_cons, ih]
    simp [Bool.or_assoc]

/-- C2: the credential scan compares every configured credential (its
instrumented comparison counter equals the number of configured
credentials and its boolean result is the plain scan), combines the
per-credential match flags with logical OR, and returns true exactly
when some configured credential matches both the presented username and
the presented password byte-for-byte. -/
theorem C2_verify_full_scan (users : List User) (u p : List Nat) :
    (verifyCount users u p).2 = users.length ∧
    (verifyCount users u p).1 = verify users u p ∧
    verify users u p
      = users.foldl
          (fun userFound user =>
            userFound || (u == user.username && p == user.password))
          false ∧
    (verify users u p = true ↔
      ∃ cred ∈ users, u = cred.username ∧ p = cred.password) := by
  refine ⟨?_, ?_, ?_, verify_iff users u p⟩
  · simpa [verifyCount] using verifyCount_snd_acc u p users (false, 0)
  · simpa [verifyCount, verify] using verifyCount_fst_acc u p users false 0
  · rw [verify_eq_any, foldl_or_acc]
    simp

/-- C10: a version-5 greeting offering zero methods (bytes 05 00) is
read without error: zero method bytes are consumed, the selection loop
finds no acceptable method, the reply 05 FF is written, and the session
aborts — it is treated as no acceptable method, not as a malformed
greeting. -/
theorem C10_empty_method_list (conf : Config) (extra : List Nat) :
    auth conf (5 :: 0 :: extra) = ⟨false, [5, 255], extra⟩ := by
  simp [auth, readByte, readFull, selectMethod]

/-- C7: for every greeting whose offered method list does not contain
method 2, the server writes exactly the two bytes 05 FF and aborts with
the rest of the client stream unread. -/
theorem C7_no_acceptable_method (conf : Config) (methods extra : List Nat)
    (h : 2 ∉ methods) :
    auth conf (5 :: methods.length :: methods ++ extra)
      = ⟨false, [5, 255], extra⟩ := by
  simp [auth, readByte, readFull_append, selectMethod_of_not_mem methods h]

/-- C7 witness: the greeting 05 01 03 (offering only method 3) yields
reply 05 FF, a false return, and no further reads. -/
theorem C7_no_acceptable_method_witness :
    auth ⟨[⟨[117], [112]⟩]⟩ [5, 1, 3] = ⟨false, [5, 255], []⟩ :=
  C7_no_acceptable_method ⟨[⟨[117], [112]⟩]⟩ [3] [] (by decide)

/-- C8: a zero username length byte, or a zero password length byte,
aborts the sub-negotiation with only the greeting reply 05 02 written
and a false return, and the result is the same for every configuration —
no configured credential is compared, since the credential scan is never
reached. -/
theorem C8_zero_length_before_scan :
    (∀ (conf : Config) (methods rest : List Nat), 2 ∈ methods →
      auth conf (5 :: methods.length :: methods ++ 1 :: 0 :: rest)
        = ⟨false, [5, 2], rest⟩) ∧
    (∀ (conf : Config) (methods u rest : List Nat), 2 ∈ methods →
      u ≠ [] →
      auth conf
          (5 :: methods.length :: methods ++
            1 :: u.length :: u ++ 0 :: rest)
        = ⟨false, [5, 2], rest⟩) := by
  constructor
  · intro conf methods rest hm
    simp [auth, readByte, readFull_append, selectMethod_of_mem methods hm]
  · intro conf methods u rest hm hu
    have hl : u.length ≠ 0 := by simpa using hu
    simp [auth, readByte, readFull_append, selectMethod_of_mem methods hm,
      hl]

/-- C8 witness: with one configured credential, a zero username length
(input 05 01 02 01 00) and a zero password length after username 117
(input 05 01 02 01 01 117 00) both abort with only 05 02 written. -/
theorem C8_zero_length_before_scan_witness :
    auth ⟨[⟨[117], [112]⟩]⟩ [5, 1, 2, 1, 0] = ⟨false, [5, 2], []⟩ ∧
    auth ⟨[⟨[117], [112]⟩]⟩ [5, 1, 2, 1, 1, 117, 0]
      = ⟨false, [5, 2], []⟩ :=
  ⟨C8_zero_length_before_scan.1 ⟨[⟨[117], [112]⟩]⟩ [2] [] (by decide),
   C8_zero_length_before_scan.2 ⟨[⟨[117], [112]⟩]⟩ [2] [117] []
     (by decide) (by decide)⟩

/-- C4: after a well-formed sub-negotiation, the stage writes the status
reply 01 00 (after the greeting reply 05 02) and returns true exactly
when some configured credential matches both presented fields; otherwise
it writes 01 01 and returns false. -/
theorem C4_auth_status_reply (conf : Config) (methods u p extra : List Nat)
    (hm : 2 ∈ methods) (hu : u ≠ []) (hp : p ≠ []) :
    ((∃ cred ∈ conf.users, u = cred.username ∧ p = cred.password) →
      auth conf
          (5 :: methods.length :: methods ++
            1 :: u.length :: u ++ p.length :: p ++ extra)
        = ⟨true, [5, 2] ++ [1, 0], extra⟩) ∧
    ((¬ ∃ cred ∈ conf.users, u = cred.username ∧ p = cred.password) →
      auth conf
          (5 :: methods.length :: methods ++
            1 :: u.length :: u ++ p.length :: p ++ extra)
        = ⟨false, [5, 2] ++ [1, 1], extra⟩) := by
  have hul : u.length ≠ 0 := by simpa using hu
  have hpl : p.length ≠ 0 := by simpa using hp
  constructor
  · intro hex
    have hv : verify conf.users u p = true := (verify_iff _ _ _).mpr hex
    simp [auth, readByte, readFull_append, selectMethod_of_mem methods hm,
      hul, hpl, hv]
  · intro hex
    have hv : verify conf.users u p = false :=
      Bool.eq_false_iff.mpr fun hc => hex ((verify_iff _ _ _).mp hc)
    simp [auth, readByte, readFull_append, selectMethod_of_mem methods hm,
      hul, hpl, hv]

/-- C4 witness: with configured credential 117/112, the matching
sub-negotiation ends in reply 01 00 and a true return. -/
theorem C4_auth_status_reply_witness :
    auth ⟨[⟨[117], [112]⟩]⟩ [5, 1, 2, 1, 1, 117, 1, 112]
      = ⟨true, [5, 2] ++ [1, 0], []⟩ :=
  (C4_auth_status_reply ⟨[⟨[117], [112]⟩]⟩ [2] [117] [112] []
      (by decide) (by decide) (by decide)).1
    ⟨⟨[117], [112]⟩, by decide, rfl, rfl⟩

/-- C5: a greeting whose version byte is not 5 aborts with no reply
written, and a request header with version not 5, command not 1,
reserved not 0, or address-type not 1 aborts with no reply written. -/
theorem C5_header_violation_silent :
    (∀ (conf : Config) (v : Nat) (rest : List Nat), v ≠ 5 →
      (auth conf (v :: rest)).written = [] ∧
      (auth conf (v :: rest)).ok = false) ∧
    (∀ (dial : Ipv4Addr → Option Ipv4Addr) (ver cmd rsv atyp : Nat)
        (rest : List Nat),
      ver ≠ 5 ∨ cmd ≠ 1 ∨ rsv ≠ 0 ∨ atyp ≠ 1 →
      (req dial (ver :: cmd :: rsv :: atyp :: rest)).written = [] ∧
      (req dial (ver :: cmd :: rsv :: atyp :: rest)).ok = false) := by
  constructor
  · intro conf v rest hv
    simp [auth, readByte, hv]
  · intro dial ver cmd rsv atyp rest h
    by_cases h1 : ver = 5
    · by_cases h2 : cmd = 1
      · by_cases h3 : rsv = 0
        · by_cases h4 : atyp = 1
          · subst h1; subst h2; subst h3; subst h4
            rcases h with h | h | h | h <;> exact absurd rfl h
          · simp [req, h1, h2, h3, h4]
        · simp [req, h1, h2, h3]
      · simp [req, h1, h2]
    · simp [req, h1]

/-- C5 witness: greeting version 4 gets no reply, and a request with
command 3 gets no reply. -/
theorem C5_header_violation_silent_witness :
    (auth ⟨[]⟩ [4, 1, 2]).written = [] ∧
    (req (fun _ => none) [5, 3, 0, 1, 127, 0, 0, 1, 0, 80]).written
      = [] :=
  ⟨(C5_header_violation_silent.1 ⟨[]⟩ 4 [1, 2] (by decide)).1,
   (C5_header_violation_silent.2 (fun _ => none) 5 3 0 1
       [127, 0, 0, 1, 0, 80] (Or.inr (Or.inl (by decide)))).1⟩

/-- C1: at the failing input — a CONNECT request for 127.0.0.1:80 whose
destination dial fails — `Req` writes only the 4-byte header 05 01 00 01
(it writes the `res` structure alone and returns false, never the 6
bound-address and bound-port bytes), so the written reply differs from
the 10-byte frame 05 01 00 01 00 00 00 00 00 00 the claim states; the
session ends without entering the relay stage. -/
theorem C1_dial_failure_reply_truncated :
    req (fun _ => none) [5, 1, 0, 1, 127, 0, 0, 1, 0, 80]
      = ⟨false, [5, 1, 0, 1], [], none⟩ ∧
    (req (fun _ => none) [5, 1, 0, 1, 127, 0, 0, 1, 0, 80]).written
      ≠ [5, 1, 0, 1, 0, 0, 0, 0, 0, 0] ∧
    runTCPConn ⟨[⟨[117], [112]⟩]⟩ (fun _ => none)
        [5, 1, 2, 1, 1, 117, 1, 112, 5, 1, 0, 1, 127, 0, 0, 1, 0, 80]
      = ⟨true, false, none, false⟩ := by
  refine ⟨by decide, by decide, by decide⟩

/-- C6: for every successful CONNECT, the reply is the header
{version 5, reply-code 0, reserved 0, address-type 1} followed by the
6-byte encoding of the local address and local port (reduced to 16 bits)
of the newly opened destination connection, `Req` returns true, and the
destination handle holds that connection. -/
theorem C6_connect_success_reply (dial : Ipv4Addr → Option Ipv4Addr)
    (d0 d1 d2 d3 p0 p1 : Nat) (rest : List Nat) (laddr : Ipv4Addr)
    (hd : dial ⟨d0, d1, d2, d3, p0 * 256 + p1⟩ = some laddr) :
    req dial
        (5 :: 1 :: 0 :: 1 :: d0 :: d1 :: d2 :: d3 :: p0 :: p1 :: rest)
      = ⟨true,
         [5, 0, 0, 1] ++
           encIpv4Addr
             ⟨laddr.a0, laddr.a1, laddr.a2, laddr.a3,
              laddr.port % 65536⟩,
         rest, some laddr⟩ := by
  simp [req, hd]

/-- C6 witness: a CONNECT to 127.0.0.1:80 with the dial returning a
connection whose local address is 10.0.0.5:4242 gets the reply
05 00 00 01 followed by that local address and port, and a true
return. -/
theorem C6_connect_success_reply_witness :
    req (fun _ => some ⟨10, 0, 0, 5, 4242⟩)
        [5, 1, 0, 1, 127, 0, 0, 1, 0, 80]
      = ⟨true,
         [5, 0, 0, 1] ++ encIpv4Addr ⟨10, 0, 0, 5, 4242 % 65536⟩,
         [], some ⟨10, 0, 0, 5, 4242⟩⟩ :=
  C6_connect_success_reply (fun _ => some ⟨10, 0, 0, 5, 4242⟩)
    127 0 0 1 0 80 [] ⟨10, 0, 0, 5, 4242⟩ rfl

/-- C9: whenever a session enters the relay stage, `Auth` returned true,
`Req` returned true, and the destination connection handle is present. -/
theorem C9_relay_entry_guard (conf : Config)
    (dial : Ipv4Addr → Option Ipv4Addr) (input : List Nat)
    (h : (runTCPConn conf dial input).ranRelay = true) :
    (runTCPConn conf dial input).authOk = true ∧
    (runTCPConn conf dial input).reqOk = true ∧
    (runTCPConn conf dial input).server.isSome = true := by
  by_cases ha : (auth conf input).ok = true
  · by_cases hr : (req dial (auth conf input).rest).ok = true
    · refine ⟨by simp [runTCPConn, ha, hr], by simp [runTCPConn, ha, hr],
        ?_⟩
      have hs := req_ok_server dial (auth conf input).rest hr
      simp [runTCPConn, ha, hr, hs]
    · exfalso
      rw [runTCPConn] at h
      simp [ha, hr] at h
  · exfalso
    rw [runTCPConn] at h
    simp [ha] at h

/-- C9 witness: a fully successful session (greeting 05 01 02, matching
credentials 117/112, CONNECT to 127.0.0.1:80 with a successful dial)
enters the relay stage with both stages true and the handle present. -/
theorem C9_relay_entry_guard_witness :
    (runTCPConn ⟨[⟨[117], [112]⟩]⟩ (fun _ => some ⟨10, 0, 0, 5, 4242⟩)
        [5, 1, 2, 1, 1, 117, 1, 112, 5, 1, 0, 1, 127, 0, 0, 1, 0,
          80]).authOk = true ∧
    (runTCPConn ⟨[⟨[117], [112]⟩]⟩ (fun _ => some ⟨10, 0, 0, 5, 4242⟩)
        [5, 1, 2, 1, 1, 117, 1, 112, 5, 1, 0, 1, 127, 0, 0, 1, 0,
          80]).reqOk = true ∧
    (runTCPConn ⟨[⟨[117], [112]⟩]⟩ (fun _ => some ⟨10, 0, 0, 5, 4242⟩)
        [5, 1, 2, 1, 1, 117, 1, 112, 5, 1, 0, 1, 127, 0, 0, 1, 0,
          80]).server.isSome = true :=
  C9_relay_entry_guard ⟨[⟨[117], [112]⟩]⟩
    (fun _ => some ⟨10, 0, 0, 5, 4242⟩)
    [5, 1, 2, 1, 1, 117, 1, 112, 5, 1, 0, 1, 127, 0, 0, 1, 0, 80]
    (by decide)

/-- C3 counterexample: from the relay-stage initial state, the
environment event in which the client-to-destination copy reaches
end-of-stream leads to a state where that direction has terminated, yet
the code has no enabled step (`istepF` returns none): the
destination-to-client direction is still running and neither resource
has been closed.  Termination of the client-to-destination direction
therefore does not cause the other direction to terminate or the
connections to be closed, contrary to the claim. -/
theorem C3_client_side_stuck :
    clientSideEnds initRunState
      = ⟨CopySt.finished, CopySt.running, false, false, 0, 0⟩ ∧
    istepF (clientSideEnds initRunState) = none ∧
    (clientSideEnds initRunState).s2c = CopySt.running ∧
    (clientSideEnds initRunState).serverCloses = 0 ∧
    (clientSideEnds initRunState).clientCloses = 0 := by
  refine ⟨rfl, by decide, rfl, rfl, rfl⟩

/-- C3 (amended): from any relay-stage state in which the
destination-to-client copy has terminated and teardown has not yet
started, the code alone finishes the session: `Run` returns, the single
deferred `Close` runs, the destination connection and the client stream
are each closed exactly once, the client-to-destination direction also
terminates, and no further step is enabled. -/
theorem C3_server_side_teardown (s : RunState)
    (h2 : s.s2c = CopySt.finished) (h3 : s.runHasReturned = false)
    (h4 : s.closeRan = false) (h5 : s.serverCloses = 0)
    (h6 : s.clientCloses = 0) :
    drain 3 s
      = ⟨CopySt.finished, CopySt.finished, true, true, 1, 1⟩ ∧
    istepF (drain 3 s) = none := by
  obtain ⟨c2s, s2c, rr, cr, sc, cc⟩ := s
  cases h2
  cases h3
  cases h4
  cases h5
  cases h6
  cases c2s <;> exact ⟨rfl, rfl⟩

/-- C3 witness: from the relay-stage initial state, the environment
event in which the destination-to-client copy terminates is followed by
the code closing both resources exactly once and ending the other
direction. -/
theorem C3_server_side_teardown_witness :
    drain 3 (serverSideEnds initRunState)
      = ⟨CopySt.finished, CopySt.finished, true, true, 1, 1⟩ ∧
    istepF (drain 3 (serverSideEnds initRunState)) = none :=
  C3_server_side_teardown (serverSideEnds initRunState)
    rfl rfl rfl rfl rfl

end Telesock
